import Mathlib

/-!
# Verification of PlixoAPP-IOS against its specification

Shallow embedding of the parts of the PlixoAPP-IOS React-Native code that the
frozen claims are about:

* `services/navigationHelper.ts` — `getNavigationPathFromNotification`
* `services/notificationService.ts` — `getTargetUrlFromNotificationData`
* `app/_layout.tsx` — `handleNotificationPress`
* `app/index.tsx` — `injectSessionToWebView`, `handleShouldStartLoadWithRequest`,
  and the pull-to-refresh reconciler inside `handleMessage` together with
  `onRefresh`, `handleWebViewLoadEnd` and `handleWebViewLoad`
* `services/googleAuthService.ts` — `exchangeGoogleToken`

JavaScript numbers are modelled as exact rationals, with `none : Option ℚ`
standing for `NaN`/`undefined` where the code can produce them; timestamps are
naturals (`Date.now()` milliseconds).  Animated springs are abstracted to their
final value.  React `useState` reads inside one event handler see the values
from the current render (a snapshot), while `useRef` cells update immediately;
the step function below reproduces exactly that.
-/

deriving instance DecidableEq for Except

/-- JavaScript truthiness of an optional string field: `undefined` and the
empty string are falsy, every other string is truthy (`if (data.field)`). -/
def jsTruthy : Option String → Bool
  | none => false
  | some s => !(s == "")

/-- A JavaScript number that may be `NaN` (or come from `undefined` feeding
arithmetic); `none` is `NaN`, `some q` an ordinary (exact) number. -/
abbrev JsNum := Option ℚ

/-- JS multiplication: any operand that is `NaN`/`undefined` gives `NaN`. -/
def jsMul : JsNum → JsNum → JsNum
  | some a, some b => some (a * b)
  | _, _ => none

/-- JS `Math.min`: `NaN` if either argument is `NaN`. -/
def jsMin : JsNum → JsNum → JsNum
  | some a, some b => some (min a b)
  | _, _ => none

/-- JS `<=` comparison: any comparison with `NaN`/`undefined` is `false`. -/
def jsLe : JsNum → JsNum → Bool
  | some a, some b => decide (a ≤ b)
  | _, _ => false

/-- JS `>=` comparison: any comparison with `NaN`/`undefined` is `false`. -/
def jsGe : JsNum → JsNum → Bool
  | some a, some b => decide (b ≤ a)
  | _, _ => false

/-! ## URL model

A model of the WHATWG `new URL(s)` constructor restricted to hierarchical
absolute URLs of the form `scheme://host[:port][/path][?query][#fragment]`.
Strings not of this shape make the parser fail (`none`), modelling the
`TypeError` the constructor throws.  (Userinfo, IPv6 hosts, percent-decoding
and non-hierarchical schemes such as `mailto:` are outside this model; none
of the URLs the claims are about use them.) -/

structure URLParts where
  hostname : String
  pathname : String
  search : String
deriving DecidableEq, Repr

/-- Valid scheme: a letter followed by letters, digits, `+`, `-` or `.`. -/
def validScheme (s : String) : Bool :=
  match s.data with
  | [] => false
  | c :: cs => c.isAlpha && cs.all (fun d => d.isAlphanum || d == '+' || d == '-' || d == '.')

/-- Characters that end the host component of a URL. -/
def isHostEnd (c : Char) : Bool := c == '/' || c == '?' || c == '#'

/-- Split a character list at the first occurrence of the separator `sep`
(assumed non-empty at use sites): `some (before, after)` when found. -/
def splitFirst (sep : List Char) : List Char → Option (List Char × List Char)
  | [] => none
  | c :: rest =>
    if sep.isPrefixOf (c :: rest) then some ([], (c :: rest).drop sep.length)
    else
      match splitFirst sep rest with
      | some (pre, post) => some (c :: pre, post)
      | none => none

/-- JS `s.startsWith(pat)`, on the underlying character lists. -/
def jsStartsWith (s pat : String) : Bool := pat.data.isPrefixOf s.data

/-- Model of `new URL(s)` for hierarchical URLs: `none` models the thrown
`TypeError` for non-URL strings.  The hostname is lowercased (as the WHATWG
host parser does); the port, if any, is not part of `hostname`; `pathname`
defaults to `"/"`; `search` keeps its leading `?` and is empty for a bare `?`. -/
def parseURL (s : String) : Option URLParts :=
  match splitFirst "://".data s.data with
  | none => none
  | some (schemeChars, afterScheme) =>
    if validScheme (String.mk schemeChars) then
      let hostPort := afterScheme.takeWhile (fun c => !isHostEnd c)
      let afterHost := afterScheme.dropWhile (fun c => !isHostEnd c)
      let host := (hostPort.takeWhile (fun c => c ≠ ':')).map Char.toLower
      if host.isEmpty then none
      else
        let noFrag := afterHost.takeWhile (fun c => c ≠ '#')
        let path := noFrag.takeWhile (fun c => c ≠ '?')
        let query := noFrag.dropWhile (fun c => c ≠ '?')
        some { hostname := String.mk host
               pathname := if path.isEmpty then "/" else String.mk path
               search := if query = [] || query = ['?'] then "" else String.mk query }
    else none

/-! ## Notification navigation (`services/navigationHelper.ts`,
`services/notificationService.ts`, `app/_layout.tsx`) -/

/-- The notification `type` union from `NotificationData` in
`services/notificationService.ts`. -/
inductive NotifType where
  | listing_approval
  | listing_rejection
  | new_message
deriving DecidableEq, Repr

/-- `NotificationData` from `services/notificationService.ts`: optional fields
are `Option String`, with `none` for an absent field. -/
structure NotificationData where
  type : NotifType
  targetUrl : Option String
  listingId : Option String
  messageId : Option String
deriving DecidableEq, Repr

/-- `getNavigationPathFromNotification` (`services/navigationHelper.ts`).
`new URL(data.targetUrl)` throwing on a non-URL string is modelled by the
`Except.error` branch; the handler has no try/catch around it. -/
def getNavigationPathFromNotification (data : NotificationData) : Except String String :=
  if jsTruthy data.targetUrl then
    match parseURL (data.targetUrl.getD "") with
    | some url => .ok (url.pathname ++ url.search)
    | none => .error "TypeError: Invalid URL"
  else
    let path := "/"
    let path :=
      if data.type = .new_message then
        if jsTruthy data.messageId then "/messages/" ++ data.messageId.getD "" else "/messages"
      else if data.type = .listing_approval ∨ data.type = .listing_rejection then
        if jsTruthy data.listingId then "/my-listings/" ++ data.listingId.getD "" else "/my-listings"
      else path
    .ok path

/-- `getTargetUrlFromNotificationData` (`services/notificationService.ts`). -/
def getTargetUrlFromNotificationData (data : NotificationData) : String :=
  if jsTruthy data.targetUrl then data.targetUrl.getD ""
  else
    let targetUrl := "https://plixo.bg/"
    let targetUrl :=
      if data.type = .new_message then
        if jsTruthy data.messageId then "https://plixo.bg/messages/" ++ data.messageId.getD ""
        else "https://plixo.bg/messages"
      else if data.type = .listing_approval ∨ data.type = .listing_rejection then
        if jsTruthy data.listingId then "https://plixo.bg/listings/" ++ data.listingId.getD ""
        else "https://plixo.bg/listings"
      else targetUrl
    targetUrl

/-- Outcome of `handleNotificationPress` (`app/_layout.tsx`): the pending
navigation path ref and the path passed to `router.replace`, if any. -/
structure PressOutcome where
  pendingNavigationPath : Option String
  routedPath : Option String
deriving DecidableEq, Repr

/-- `handleNotificationPress` (`app/_layout.tsx`): computes the navigation path
(an exception from `getNavigationPathFromNotification` propagates — there is no
try/catch), stores it in the pending ref, and routes immediately when the app
state is `active` (clearing the ref). -/
def handleNotificationPress (data : NotificationData) (appActive : Bool) :
    Except String PressOutcome :=
  match getNavigationPathFromNotification data with
  | .error e => .error e
  | .ok navigationPath =>
    if appActive then .ok { pendingNavigationPath := none, routedPath := some navigationPath }
    else .ok { pendingNavigationPath := some navigationPath, routedPath := none }

/-! ## Session injection (`app/index.tsx`, `injectSessionToWebView`) -/

/-- The fields of a Supabase `Session` used by the injection code; the user
object is kept opaque as its serialized form. -/
structure SessionData where
  access_token : String
  refresh_token : String
  user : String
deriving DecidableEq, Repr

/-- The payload of a `SUPABASE_SESSION` bridge message. -/
structure SessionMessage where
  access_token : String
  refresh_token : String
  user : String
deriving DecidableEq, Repr

/-- `injectSessionToWebView` (`app/index.tsx` lines 129-152): parse the current
URL (a parse failure is caught and nothing is sent), return without a message
unless the hostname is `plixo.bg` or `www.plixo.bg`, otherwise send exactly one
`SUPABASE_SESSION` message carrying the session's tokens and user.  The result
is the emitted message: `none` models "no message sent". -/
def injectSessionToWebView (currentUrl : String) (sessionData : SessionData) :
    Option SessionMessage :=
  match parseURL currentUrl with
  | none => none
  | some url =>
    if url.hostname ≠ "plixo.bg" ∧ url.hostname ≠ "www.plixo.bg" then none
    else some { access_token := sessionData.access_token
                refresh_token := sessionData.refresh_token
                user := sessionData.user }

/-! ## Navigation-request filter (`app/index.tsx`,
`handleShouldStartLoadWithRequest`) -/

/-- `haystack` contains `needle` as a contiguous substring
(JS `String.prototype.includes`), on the underlying character lists. -/
def charsContain (needle : List Char) : List Char → Bool
  | [] => needle.isEmpty
  | c :: rest => needle.isPrefixOf (c :: rest) || charsContain needle rest

/-- JS `url.includes(pat)`. -/
def jsIncludes (s pat : String) : Bool := charsContain pat.data s.data

/-- Decision of `handleShouldStartLoadWithRequest` (`app/index.tsx` lines
673-681): the first component is the return value (load in the embedded
WebView), the second records whether `Linking.openURL` was called (external
browser). -/
structure LoadDecision where
  allowInWebView : Bool
  openedExternally : Bool
deriving DecidableEq, Repr

/-- `handleShouldStartLoadWithRequest` (`app/index.tsx`): allow the load iff
the URL contains `plixo.bg` anywhere, or starts with `about:blank` or `data:`;
otherwise hand the URL to the external browser and block it. -/
def handleShouldStartLoadWithRequest (url : String) : LoadDecision :=
  let isPlixoUrl := jsIncludes url "plixo.bg"
  let isAboutBlank := jsStartsWith url "about:blank"
  let isDataUrl := jsStartsWith url "data:"
  if isPlixoUrl || isAboutBlank || isDataUrl then
    { allowInWebView := true, openedExternally := false }
  else
    { allowInWebView := false, openedExternally := true }

/-! ## Token exchange (`services/googleAuthService.ts`, `exchangeGoogleToken`) -/

/-- The JSON body of an Edge-Function response, with each field optional
(absent fields are `none`). -/
structure RespBody where
  access_token : Option String
  refresh_token : Option String
  user : Option String
  error : Option String
deriving DecidableEq, Repr

/-- The observable outcome of the bounded `fetch` call inside
`exchangeGoogleToken`:
* `timeout` — the 10 s `AbortController` timer fired and the in-flight call
  was abandoned (`AbortError` reaches the catch block);
* `networkError msg` — `fetch` rejected with a non-abort error whose
  `message` is `msg`;
* `response status body` — an HTTP response arrived with the given status;
  `body = none` models a body that is not parseable JSON. -/
inductive FetchOutcome where
  | timeout
  | networkError (message : String)
  | response (status : ℕ) (body : Option RespBody)
deriving DecidableEq, Repr

/-- `EdgeFunctionResponse` as returned on success. -/
structure ExchangeData where
  access_token : String
  refresh_token : String
  user : Option String
deriving DecidableEq, Repr

/-- The `{ success, data?, error? }` result of `exchangeGoogleToken`. -/
structure ExchangeResult where
  success : Bool
  data : Option ExchangeData
  error : Option String
deriving DecidableEq, Repr

/-- The timeout-specific error message of `exchangeGoogleToken`. -/
def timeoutErrorMessage : String := "Request timed out. Please try again."

/-- The status-based error message `Server error: ${response.status}`. -/
def serverErrorMessage (status : ℕ) : String := "Server error: " ++ toString status

/-- Model constant for the `message` of the `SyntaxError` thrown by
`response.json()` on an unparseable 2xx body (its exact JS text is
environment-dependent; only its non-emptiness matters to the code). -/
def jsonSyntaxErrorMessage : String := "Unexpected token in JSON"

/-- `response.ok`: status in the 2xx range. -/
def respOk (status : ℕ) : Bool := decide (200 ≤ status) && decide (status ≤ 299)

/-- `exchangeGoogleToken` (`services/googleAuthService.ts` lines 115-178) as a
function of the fetch outcome.  The whole body is wrapped in try/catch, so the
function always returns (never throws):
* `AbortError` (timeout) → failure with `timeoutErrorMessage`;
* other fetch rejection → failure with `error.message || 'Failed to authenticate with server'`;
* non-2xx response → failure with `errorData.error || 'Server error: ${status}'`,
  where `errorData` is the parsed body or `{}` when it does not parse;
* 2xx whose body does not parse → `response.json()` throws a `SyntaxError`,
  caught by the outer catch → failure with its message;
* 2xx with a falsy `access_token` or `refresh_token` → failure
  `'Invalid response from server'`;
* 2xx with both tokens truthy → success carrying the data. -/
def exchangeGoogleToken (outcome : FetchOutcome) : ExchangeResult :=
  match outcome with
  | .timeout => { success := false, data := none, error := some timeoutErrorMessage }
  | .networkError message =>
    { success := false, data := none
      error := some (if message = "" then "Failed to authenticate with server" else message) }
  | .response status body =>
    if !respOk status then
      let errorData := body.getD { access_token := none, refresh_token := none
                                   user := none, error := none }
      { success := false, data := none
        error := some (if jsTruthy errorData.error then errorData.error.getD ""
                       else serverErrorMessage status) }
    else
      match body with
      | none => { success := false, data := none, error := some jsonSyntaxErrorMessage }
      | some data =>
        if !(jsTruthy data.access_token) || !(jsTruthy data.refresh_token) then
          { success := false, data := none, error := some "Invalid response from server" }
        else
          { success := true
            data := some { access_token := data.access_token.getD ""
                           refresh_token := data.refresh_token.getD ""
                           user := data.user }
            error := none }

/-! ## Pull-to-refresh reconciler (`app/index.tsx`, `handleMessage`)

The state below is the slice of the `HomeScreen` component that the gesture
reconciler and the refresh flag live in: the React state variables `isAtTop`,
`isPulling`, `refreshing`, `loading`, `hasError` and the refs `scrollYRef`,
`prevScrollYRef`, `wasAtTopWhenPullStarted`, `refreshTriggered`,
`arrivedAtTopTimestamp`, `justArrivedAtTop`, plus the `pullAnim` animated
value (springs abstracted to their target value).

Timers are modelled deterministically: `justArrivedAtTop` is stored as the
timestamp at which it was set (`justArrivedSince`), and the 150 ms
`setTimeout` that clears it makes the flag read as true exactly while
`now < since + 150`.  The 300 ms delay inside `endRefreshSoon` is abstracted
into the load-completion transition itself.  `Platform.OS` is `'ios'` (the
overscroll reconciler only runs there). -/

structure ReconcilerState where
  scrollY : ℚ
  prevScrollY : ℚ
  isAtTop : Bool
  isPulling : Bool
  refreshing : Bool
  loading : Bool
  hasError : Bool
  wasAtTopWhenPullStarted : Bool
  refreshTriggered : Bool
  arrivedAtTopTimestamp : Option ℕ
  justArrivedSince : Option ℕ
  pullAnim : JsNum
deriving DecidableEq, Repr

/-- The component's initial state. -/
def initialState : ReconcilerState where
  scrollY := 0
  prevScrollY := 0
  isAtTop := true
  isPulling := false
  refreshing := false
  loading := true
  hasError := false
  wasAtTopWhenPullStarted := false
  refreshTriggered := false
  arrivedAtTopTimestamp := none
  justArrivedSince := none
  pullAnim := some 0

/-- `PULL_TRIGGER` (`app/index.tsx` line 39). -/
def PULL_TRIGGER : ℚ := 80

/-- The `justArrivedAtTop` flag as read at time `now`: set on arriving at the
top and cleared by a 150 ms `setTimeout`. -/
def justArrivedAtTop (s : ReconcilerState) (now : ℕ) : Bool :=
  match s.justArrivedSince with
  | some since => decide (now < since + 150)
  | none => false

/-- The `phase` field of an overscroll message; `finish` models the source's
`'end'` phase send by the injected page script on touch end/cancel. -/
inductive OverscrollPhase where
  | start
  | move
  | finish
deriving DecidableEq, Repr

/-- A parsed bridge message relevant to the reconciler.  Fields are `Option`s:
`none` models an absent (`undefined`) field of the JSON payload.
`other` covers every well-formed payload whose `type` is none of `scroll` /
`overscroll` (including `request_device_id`, `badge`, `google_auth_requested`,
`navigation`, or an unknown/absent `type`): none of those branches touch this
state slice. -/
inductive BridgeMsg where
  | scroll (scrollY : Option ℚ) (isAtTop : Option Bool)
  | overscroll (phase : Option OverscrollPhase) (dy : Option ℚ)
  | other
deriving DecidableEq, Repr

/-- Events driving the modelled slice of the component. -/
inductive AppEvent where
  | bridge (msg : Option BridgeMsg) (now : ℕ)
  | loadStart
  | loadEnd
  | load
deriving DecidableEq, Repr

/-- Per-event observable effects: how many times `onRefresh` was invoked. -/
structure Effects where
  onRefreshCalls : ℕ
deriving DecidableEq, Repr

def noEffects : Effects := { onRefreshCalls := 0 }

/-- `onRefresh` (`app/index.tsx` lines 317-322): guarded by the `refreshing`
value of the current render (`refreshing0`); when not already refreshing it
raises the flag, clears the error state and reloads the WebView. -/
def onRefreshFn (s : ReconcilerState) (refreshing0 : Bool) : ReconcilerState :=
  if refreshing0 then s else { s with refreshing := true, hasError := false }

/-- The refresh-trigger body that appears verbatim at the two trigger sites
(`app/index.tsx` lines 440-449 and 475-485): if the dampened distance reached
`PULL_TRIGGER` and this gesture has not fired yet, set `refreshTriggered`,
call `onRefresh`, and spring the indicator to 60.  Returns the new state and
the number of `onRefresh` calls made. -/
def triggerCheck (refreshing0 : Bool) (dampened : JsNum) (s : ReconcilerState) :
    ReconcilerState × ℕ :=
  if jsGe dampened (some PULL_TRIGGER) && !s.refreshTriggered then
    ({ onRefreshFn s refreshing0 with refreshTriggered := true, pullAnim := some 60 }, 1)
  else (s, 0)

/-- The `data.type === 'scroll'` branch (`app/index.tsx` lines 355-377).
`data.scrollY || 0` coerces an absent `scrollY` to 0, and
`setIsAtTop(data.isAtTop)` stores a falsy value when the field is absent. -/
def stepScroll (s : ReconcilerState) (scrollY? : Option ℚ) (isAtTop? : Option Bool)
    (now : ℕ) : ReconcilerState :=
  let newScrollY := scrollY?.getD 0
  let prevScrollY := s.prevScrollY
  let s := { s with scrollY := newScrollY, isAtTop := isAtTop?.getD false }
  let s :=
    if prevScrollY > 0 ∧ newScrollY = 0 then
      { s with justArrivedSince := some now, arrivedAtTopTimestamp := some now }
    else if newScrollY = 0 ∧ prevScrollY = 0 then
      if s.arrivedAtTopTimestamp = none then { s with arrivedAtTopTimestamp := some now }
      else s
    else if newScrollY > 0 then
      { s with arrivedAtTopTimestamp := none, justArrivedSince := none }
    else s
  { s with prevScrollY := newScrollY }

/-- The tail of the nested `move` arm (`app/index.tsx` lines 436-449 and
471-485): apply the dampened distance to `pullAnim` and run the first trigger
site (lines 440-449); then, unless a refresh was already running per the
render snapshot, re-apply the dampened value and run the second, textually
identical trigger site (lines 471-485). -/
def moveDamping (refreshing0 : Bool) (dampened : JsNum) (s : ReconcilerState) :
    ReconcilerState × Effects :=
  let t₂ := triggerCheck refreshing0 dampened { s with pullAnim := dampened }
  if !refreshing0 then
    let t₄ := triggerCheck refreshing0 dampened { t₂.1 with pullAnim := dampened }
    (t₄.1, { onRefreshCalls := t₂.2 + t₄.2 })
  else (t₂.1, { onRefreshCalls := t₂.2 })

/-- The `data.type === 'overscroll'` branch (`app/index.tsx` lines 381-502) on
iOS, transcribed with its duplicated nested block: the outer `start` logic
(lines 388-400) requires a stable top (timestamp at least 120 ms old); the
outer `move` guards (lines 402-412) are followed by a nested copy of the whole
overscroll block (lines 414-468) whose `start` arm is dead (the phase is
`move` there) and whose `move` arm re-checks `scrollY > 1`, dampens, and runs
the first trigger site; a `return` inside it exits the whole handler.  After
the nested block, the `if (!refreshing)` section (lines 471-485) re-applies
the dampened value and runs the second, identical trigger site.  The outer
`end` arm (lines 488-501) finishes the gesture without touching `refreshing`. -/
def stepOverscroll (s : ReconcilerState) (refreshing0 : Bool)
    (phase : Option OverscrollPhase) (dy : Option ℚ) (now : ℕ) :
    ReconcilerState × Effects :=
  let forceNotAtTop := decide (s.scrollY > 2) || !s.isAtTop
  match phase with
  | some .start =>
    let isStableTop := !forceNotAtTop &&
      (match s.arrivedAtTopTimestamp with
       | some t => decide (120 ≤ now - t)
       | none => false)
    if isStableTop then
      ({ s with wasAtTopWhenPullStarted := true, isPulling := true,
                refreshTriggered := false }, noEffects)
    else
      ({ s with wasAtTopWhenPullStarted := false }, noEffects)
  | some .move =>
    if forceNotAtTop then
      ({ s with wasAtTopWhenPullStarted := false, isPulling := false,
                pullAnim := some 0 }, noEffects)
    else if !s.wasAtTopWhenPullStarted then (s, noEffects)
    else if jsLe dy (some 0) then (s, noEffects)
    else if justArrivedAtTop s now then (s, noEffects)
    else
      -- nested duplicated overscroll block, `move` arm (lines 431-450)
      let forceNotAtTopNested := decide (s.scrollY > 1) || !s.isAtTop
      if !s.wasAtTopWhenPullStarted then (s, noEffects)
      else if forceNotAtTopNested then (s, noEffects)
      else if jsLe dy (some 0) then (s, noEffects)
      else
        moveDamping refreshing0 (jsMin (jsMul dy (some 0.6)) (some (PULL_TRIGGER * 1.5))) s
  | some .finish =>
    if !s.wasAtTopWhenPullStarted then (s, noEffects)
    else
      let s₁ := { s with isPulling := false }
      let s₂ := if !s₁.refreshTriggered then { s₁ with pullAnim := some 0 } else s₁
      ({ s₂ with wasAtTopWhenPullStarted := false }, noEffects)
  | none => (s, noEffects)

/-- One step of the modelled slice:
* `bridge none` — the payload was unparseable JSON: `JSON.parse` throws, the
  surrounding try/catch drops the event, nothing changes;
* `bridge (some m)` — `handleMessage` on the parsed message `m`, with React
  state reads snapshotted at the current state;
* `loadStart` — `handleWebViewLoadStart`;
* `loadEnd` — `handleWebViewLoadEnd` followed by `endRefreshSoon`'s delayed
  `setRefreshing(false)` and the `useEffect` spring that returns the
  indicator to 0;
* `load` — `handleWebViewLoad` (same completion path, plus clearing the
  error flag). -/
def step (s : ReconcilerState) (e : AppEvent) : ReconcilerState × Effects :=
  match e with
  | .bridge none _ => (s, noEffects)
  | .bridge (some m) now =>
    match m with
    | .scroll scrollY? isAtTop? => (stepScroll s scrollY? isAtTop? now, noEffects)
    | .overscroll phase dy => stepOverscroll s s.refreshing phase dy now
    | .other => (s, noEffects)
  | .loadStart => ({ s with loading := true, hasError := false }, noEffects)
  | .loadEnd =>
    let s := { s with loading := false }
    if s.refreshing then ({ s with refreshing := false, pullAnim := some 0 }, noEffects)
    else (s, noEffects)
  | .load =>
    let s := { s with loading := false, hasError := false }
    if s.refreshing then ({ s with refreshing := false, pullAnim := some 0 }, noEffects)
    else (s, noEffects)

/-- Run a list of events, accumulating the total number of `onRefresh` calls. -/
def run (s : ReconcilerState) : List AppEvent → ReconcilerState × ℕ
  | [] => (s, 0)
  | e :: rest =>
    let tail := run (step s e).1 rest
    (tail.1, (step s e).2.onRefreshCalls + tail.2)

/-- Is this event an overscroll `start` (the event that opens a new gesture)? -/
def isStartEvent : AppEvent → Bool
  | .bridge (some (.overscroll (some .start) _)) _ => true
  | _ => false

/-! ## Concrete scenarios used by the claims -/

/-- Scroll away from the top, return to offset 0 at t = 1000 ms (reported
at-top), then `start` only 50 ms later. -/
def startAfter50ms : List AppEvent :=
  [ .bridge (some (.scroll (some 5) (some false))) 0
  , .bridge (some (.scroll (some 0) (some true))) 1000
  , .bridge (some (.overscroll (some .start) (some 0))) 1050 ]

/-- Same as `startAfter50ms` but the `start` arrives 150 ms after reaching
offset 0. -/
def startAfter150ms : List AppEvent :=
  [ .bridge (some (.scroll (some 5) (some false))) 0
  , .bridge (some (.scroll (some 0) (some true))) 1000
  , .bridge (some (.overscroll (some .start) (some 0))) 1150 ]

/-- An accepted pull during which an upward (`dy = -10`) move arrives, followed
by a downward move of 200 px in the same gesture. -/
def upThenDownGesture : List AppEvent :=
  [ .bridge (some (.scroll (some 5) (some false))) 0
  , .bridge (some (.scroll (some 0) (some true))) 1000
  , .bridge (some (.overscroll (some .start) (some 0))) 2000
  , .bridge (some (.overscroll (some .move) (some (-10)))) 2050
  , .bridge (some (.overscroll (some .move) (some 200))) 2100 ]

/-- `upThenDownGesture` without its final downward move. -/
def upThenDownGesturePrefix : List AppEvent :=
  [ .bridge (some (.scroll (some 5) (some false))) 0
  , .bridge (some (.scroll (some 0) (some true))) 1000
  , .bridge (some (.overscroll (some .start) (some 0))) 2000
  , .bridge (some (.overscroll (some .move) (some (-10)))) 2050 ]

/-- The component state after the page reports having scrolled to offset 5. -/
def stateAfterScrollAway : ReconcilerState :=
  (step initialState (.bridge (some (.scroll (some 5) (some false))) 0)).1

/-- A state that has been stably at the top since t = 0. -/
def stableTopState : ReconcilerState :=
  { initialState with arrivedAtTopTimestamp := some 0 }

/-- Two big downward moves in one gesture (for the single-trigger bound). -/
def twoBigMoves : List AppEvent :=
  [ .bridge (some (.overscroll (some .move) (some 200))) 2100
  , .bridge (some (.overscroll (some .move) (some 300))) 2200 ]

/-! ## Helper lemmas -/

/-- Unfolding `run` over a cons cell. -/
theorem run_cons (s : ReconcilerState) (e : AppEvent) (rest : List AppEvent) :
    run s (e :: rest) =
      ((run (step s e).1 rest).1,
        (step s e).2.onRefreshCalls + (run (step s e).1 rest).2) := rfl

/-- A trigger site either does nothing, or fires exactly once: then the guard
`refreshTriggered` was down before and is up after, and `refreshing` is raised
unless the snapshot said a refresh was already running. -/
theorem triggerCheck_spec (r0 : Bool) (d : JsNum) (s : ReconcilerState) :
    triggerCheck r0 d s = (s, 0) ∨
    ((triggerCheck r0 d s).2 = 1 ∧ s.refreshTriggered = false ∧
     (triggerCheck r0 d s).1.refreshTriggered = true ∧
     (triggerCheck r0 d s).1.refreshing = (if r0 then s.refreshing else true) ∧
     (triggerCheck r0 d s).1.scrollY = s.scrollY ∧
     (triggerCheck r0 d s).1.isAtTop = s.isAtTop ∧
     (triggerCheck r0 d s).1.wasAtTopWhenPullStarted = s.wasAtTopWhenPullStarted) := by
  cases hrt : s.refreshTriggered
  · cases hg : jsGe d (some PULL_TRIGGER)
    · left; simp [triggerCheck, hg, hrt]
    · right; cases r0 <;> simp [triggerCheck, hg, hrt, onRefreshFn]
  · left; simp [triggerCheck, hrt]

/-- `stepScroll` never touches the refresh machinery. -/
theorem stepScroll_invariants (s : ReconcilerState) (scrollY? : Option ℚ)
    (isAtTop? : Option Bool) (now : ℕ) :
    (stepScroll s scrollY? isAtTop? now).refreshing = s.refreshing ∧
    (stepScroll s scrollY? isAtTop? now).refreshTriggered = s.refreshTriggered := by
  simp only [stepScroll]
  split_ifs <;> simp

/-- Once the gesture has fired, a trigger site is a no-op. -/
theorem triggerCheck_of_triggered (r0 : Bool) (d : JsNum) (s : ReconcilerState)
    (h : s.refreshTriggered = true) : triggerCheck r0 d s = (s, 0) := by
  simp [triggerCheck, h]


/-- The two stacked trigger sites fire at most once between them: either no
call happens, the guard is unchanged and `refreshing` is untouched, or exactly
one call happens, with the guard raised and `refreshing` raised unless the
snapshot already said a refresh was running. -/
theorem moveDamping_spec (r0 : Bool) (d : JsNum) (s : ReconcilerState) :
    ((moveDamping r0 d s).2.onRefreshCalls = 0 ∧
     (moveDamping r0 d s).1.refreshTriggered = s.refreshTriggered ∧
     (moveDamping r0 d s).1.refreshing = s.refreshing) ∨
    ((moveDamping r0 d s).2.onRefreshCalls = 1 ∧ s.refreshTriggered = false ∧
     (moveDamping r0 d s).1.refreshTriggered = true ∧
     (moveDamping r0 d s).1.refreshing = (if r0 then s.refreshing else true)) := by
  cases hge : jsGe d (some PULL_TRIGGER) with
  | false => left; cases r0 <;> simp [moveDamping, triggerCheck, hge, onRefreshFn]
  | true =>
    cases hrt : s.refreshTriggered with
    | true => left; cases r0 <;> simp [moveDamping, triggerCheck, hge, hrt, onRefreshFn]
    | false => right; cases r0 <;> simp [moveDamping, triggerCheck, hge, hrt, onRefreshFn]

/-- Per-event refresh-call discipline for every event that is not an
overscroll `start`: either no `onRefresh` call happens and the
`refreshTriggered` guard is unchanged, or exactly one call happens, in which
case the guard was down before the event and is up afterwards. -/
theorem step_calls_spec (s : ReconcilerState) (e : AppEvent)
    (h : isStartEvent e = false) :
    ((step s e).2.onRefreshCalls = 0 ∧
     (step s e).1.refreshTriggered = s.refreshTriggered) ∨
    ((step s e).2.onRefreshCalls = 1 ∧ s.refreshTriggered = false ∧
     (step s e).1.refreshTriggered = true) := by
  cases e with
  | loadStart => left; simp [step, noEffects]
  | loadEnd => left; simp only [step]; split <;> simp [noEffects]
  | load => left; simp only [step]; split <;> simp [noEffects]
  | bridge msg now =>
    cases msg with
    | none => left; simp [step, noEffects]
    | some m =>
      cases m with
      | scroll a b =>
        left
        exact ⟨by simp [step, noEffects], by
          simpa [step] using (stepScroll_invariants s a b now).2⟩
      | other => left; simp [step, noEffects]
      | overscroll ph dy =>
        cases ph with
        | none => left; simp [step, stepOverscroll, noEffects]
        | some p =>
          cases p with
          | start => exact absurd h (by simp [isStartEvent])
          | finish =>
            left
            simp only [step, stepOverscroll]
            split_ifs <;> simp [noEffects]
          | move =>
            simp only [step, stepOverscroll]
            split_ifs with h1 h2 h3 h4 h5
            · left; simp [noEffects]
            · left; simp [noEffects]
            · left; simp [noEffects]
            · left; simp [noEffects]
            · left; simp [noEffects]
            · rcases moveDamping_spec s.refreshing
                  (jsMin (jsMul dy (some 0.6)) (some (PULL_TRIGGER * 1.5))) s with
                ⟨hc, hrt, -⟩ | ⟨hc, hf, ht, -⟩
              · exact Or.inl ⟨hc, hrt⟩
              · exact Or.inr ⟨hc, hf, ht⟩

/-- Over any sequence of non-`start` events, the number of `onRefresh` calls
is bounded by 1, and by 0 when the gesture has already fired. -/
theorem run_calls_le (evs : List AppEvent) : ∀ s : ReconcilerState,
    (∀ e ∈ evs, isStartEvent e = false) →
    (run s evs).2 ≤ (if s.refreshTriggered then 0 else 1) := by
  induction evs with
  | nil => intro s h; simp [run]
  | cons e rest ih =>
    intro s h
    have he := h e (List.mem_cons_self e rest)
    have hrest : ∀ e' ∈ rest, isStartEvent e' = false :=
      fun e' he' => h e' (List.mem_cons_of_mem e he')
    have hb := ih (step s e).1 hrest
    rcases step_calls_spec s e he with ⟨hc, hrt⟩ | ⟨hc, hf, ht⟩
    · rw [hrt] at hb
      simpa [run_cons, hc] using hb
    · rw [ht] at hb
      simp only [if_true] at hb
      rw [run_cons]
      simp only [hc, hf, if_neg (by simp : ¬False)]
      simp at hb ⊢
      omega

/-- Refreshing-flag discipline of `handleMessage` (bridge events): the flag is
unchanged whenever no `onRefresh` call happened, and it is never lowered. -/
theorem step_bridge_refreshing (s : ReconcilerState) (m : Option BridgeMsg) (now : ℕ) :
    ((step s (.bridge m now)).2.onRefreshCalls = 0 →
      (step s (.bridge m now)).1.refreshing = s.refreshing) ∧
    (s.refreshing = true → (step s (.bridge m now)).1.refreshing = true) := by
  cases m with
  | none => exact ⟨fun _ => rfl, fun h => h⟩
  | some msg =>
    cases msg with
    | scroll a b =>
      have hs := (stepScroll_invariants s a b now).1
      exact ⟨fun _ => by simpa [step] using hs,
             fun h => by rw [← h]; simpa [step] using hs⟩
    | other => exact ⟨fun _ => rfl, fun h => h⟩
    | overscroll ph dy =>
      cases ph with
      | none => exact ⟨fun _ => by simp [step, stepOverscroll], fun h => by
          simpa [step, stepOverscroll] using h⟩
      | some p =>
        cases p with
        | start =>
          constructor <;> intro h <;>
            · simp only [step, stepOverscroll]
              split <;> simp [h]
        | finish =>
          constructor <;> intro h <;>
            · simp only [step, stepOverscroll]
              split_ifs <;> simp [h]
        | move =>
          simp only [step, stepOverscroll]
          split_ifs with h1 h2 h3 h4 h5
          · exact ⟨fun _ => rfl, fun h => h⟩
          · exact ⟨fun _ => rfl, fun h => h⟩
          · exact ⟨fun _ => rfl, fun h => h⟩
          · exact ⟨fun _ => rfl, fun h => h⟩
          · exact ⟨fun _ => rfl, fun h => h⟩
          · rcases moveDamping_spec s.refreshing
                (jsMin (jsMul dy (some 0.6)) (some (PULL_TRIGGER * 1.5))) s with
              ⟨hc, -, hrf⟩ | ⟨hc, -, -, hrf⟩
            · exact ⟨fun _ => hrf, fun h => by rw [hrf, h]⟩
            · refine ⟨fun hz => ?_, fun h => ?_⟩
              · rw [hz] at hc; exact absurd hc (by simp)
              · rw [hrf, h]; simp

/-- C5: for every sequence of overscroll events between a `start` event and
the next `start`, at most one refresh-trigger decision (call to `onRefresh`)
is emitted, even if `move` events cross the damped-distance trigger threshold
multiple times: the `refreshTriggered` guard is set on the first crossing and
blocks all later crossings in the same gesture. -/
theorem atMostOneRefreshPerGesture (s : ReconcilerState) (dy : Option ℚ)
    (now : ℕ) (evs : List AppEvent)
    (h : ∀ e ∈ evs, isStartEvent e = false) :
    (run (step s (.bridge (some (.overscroll (some .start) dy)) now)).1 evs).2 ≤ 1 :=
  le_trans (run_calls_le evs _ h) (by split <;> omega)

/-- Witness for `atMostOneRefreshPerGesture`: a gesture accepted from a stable
top followed by two big moves (both beyond the threshold) calls `onRefresh` at
most once. -/
theorem atMostOneRefreshPerGesture_witness :
    (∀ e ∈ twoBigMoves, isStartEvent e = false) ∧
    (run (step stableTopState
        (.bridge (some (.overscroll (some .start) (some 0))) 500)).1 twoBigMoves).2 ≤ 1 :=
  ⟨by decide, atMostOneRefreshPerGesture stableTopState (some 0) 500 twoBigMoves (by decide)⟩

/-- C6: over every event, the `refreshing` flag rises from `false` to `true`
only on an event that called `onRefresh` (a refresh trigger), falls from
`true` to `false` only on a load-completion event (`handleWebViewLoadEnd` or
`handleWebViewLoad`, whose `endRefreshSoon` lowers it after a short fixed
delay, abstracted here into the transition), and is never changed by a gesture
`end` event alone. -/
theorem refreshingTransitionDiscipline (s : ReconcilerState) (e : AppEvent) :
    (s.refreshing = false → (step s e).1.refreshing = true →
      1 ≤ (step s e).2.onRefreshCalls) ∧
    (s.refreshing = true → (step s e).1.refreshing = false →
      e = .loadEnd ∨ e = .load) ∧
    (∀ dy now, e = .bridge (some (.overscroll (some .finish) dy)) now →
      (step s e).1.refreshing = s.refreshing) := by
  refine ⟨?_, ?_, ?_⟩
  · intro h0 h1
    cases e with
    | bridge m now =>
      rcases Nat.eq_zero_or_pos (step s (.bridge m now)).2.onRefreshCalls with hz | hp
      · have hu := (step_bridge_refreshing s m now).1 hz
        rw [hu, h0] at h1
        exact absurd h1 (by simp)
      · exact hp
    | loadStart =>
      simp only [step] at h1
      rw [h0] at h1
      exact absurd h1 (by simp)
    | loadEnd =>
      simp only [step] at h1
      rw [h0] at h1
      simp at h1
    | load =>
      simp only [step] at h1
      rw [h0] at h1
      simp at h1
  · intro h1 h0
    cases e with
    | bridge m now =>
      have hu := (step_bridge_refreshing s m now).2 h1
      rw [hu] at h0
      exact absurd h0 (by simp)
    | loadStart =>
      simp only [step] at h0
      rw [h1] at h0
      exact absurd h0 (by simp)
    | loadEnd => exact Or.inl rfl
    | load => exact Or.inr rfl
  · intro dy now he
    subst he
    simp only [step, stepOverscroll]
    split_ifs <;> rfl

/-- Witness for `refreshingTransitionDiscipline`: with the flag raised, a
load-completion event lowers it, and that event is a load-completion event. -/
theorem refreshingTransitionDiscipline_witness :
    ({ initialState with refreshing := true } : ReconcilerState).refreshing = true ∧
    (step { initialState with refreshing := true } .loadEnd).1.refreshing = false ∧
    (AppEvent.loadEnd = AppEvent.loadEnd ∨ AppEvent.loadEnd = AppEvent.load) :=
  ⟨rfl, by decide,
    (refreshingTransitionDiscipline { initialState with refreshing := true } .loadEnd).2.1
      rfl (by decide)⟩

/-- Counterexample to C2 as stated: in `upThenDownGesture` an upward move
(`dy = -10`) arrives during an active pull; the claim says every later
positive-dy move of the gesture is ignored and cannot trigger a refresh, yet
the subsequent `move(dy = 200)` does call `onRefresh` (1 call in total, 0
before the positive move). -/
theorem upwardMoveNotCancelling_cex :
    (run initialState upThenDownGesturePrefix).2 = 0 ∧
    (run initialState upThenDownGesture).2 = 1 := by
  constructor
  · decide
  · simp [upThenDownGesture, run, step, stepOverscroll, stepScroll, moveDamping,
          triggerCheck, jsMul, jsMin, jsGe, jsLe, justArrivedAtTop, onRefreshFn,
          noEffects, PULL_TRIGGER, initialState]
    norm_num

/-- C2 (amended): an overscroll `move` with `dy ≤ 0` arriving while the page
is still at the top is dropped with no state change and no `onRefresh` call —
it does **not** cancel the pull, so later positive-dy moves of the same
gesture are still processed (the upward-cancellation lives in the injected
page script, which sends an `end` event instead of an upward `move`). -/
theorem upwardMoveDropped (s : ReconcilerState) (now : ℕ) (d : ℚ)
    (h1 : s.scrollY ≤ 2) (h2 : s.isAtTop = true) (h3 : d ≤ 0) :
    step s (.bridge (some (.overscroll (some .move) (some d))) now) = (s, noEffects) := by
  simp only [step, stepOverscroll]
  split_ifs with hA hB hC hD hE
  · simp [h2] at hA
    exact absurd hA (not_lt.mpr h1)
  · rfl
  · rfl
  · exact absurd (by simpa [jsLe] using h3) hC
  · exact absurd (by simpa [jsLe] using h3) hC
  · exact absurd (by simpa [jsLe] using h3) hC

/-- Witness for `upwardMoveDropped`: from the initial state (at the top), an
upward move of −5 px is a no-op. -/
theorem upwardMoveDropped_witness :
    initialState.scrollY ≤ 2 ∧ initialState.isAtTop = true ∧ ((-5 : ℚ) ≤ 0) ∧
    step initialState (.bridge (some (.overscroll (some .move) (some (-5)))) 2100) =
      (initialState, noEffects) :=
  ⟨by norm_num [initialState], rfl, by norm_num,
   upwardMoveDropped initialState 2100 (-5) (by norm_num [initialState]) rfl (by norm_num)⟩

/-- C4: an overscroll `start` is accepted as an eligible pull iff the
reconciler currently sees the page at the top (`scrollY ≤ 2` and the reported
`isAtTop`) and the recorded arrived-at-top timestamp is set and at least
120 ms old; concretely, a `start` 50 ms after reaching offset 0 is rejected
and one 150 ms after is accepted. -/
theorem overscrollStartAcceptance :
    (∀ (s : ReconcilerState) (now : ℕ) (dy : Option ℚ),
      (step s (.bridge (some (.overscroll (some .start) dy)) now)).1.wasAtTopWhenPullStarted = true
        ↔ (s.scrollY ≤ 2 ∧ s.isAtTop = true ∧
           ∃ t, s.arrivedAtTopTimestamp = some t ∧ 120 ≤ now - t)) ∧
    (run initialState startAfter50ms).1.wasAtTopWhenPullStarted = false ∧
    (run initialState startAfter150ms).1.wasAtTopWhenPullStarted = true := by
  refine ⟨?_, by decide, by decide⟩
  intro s now dy
  cases ht : s.arrivedAtTopTimestamp with
  | none =>
    simp only [step, stepOverscroll, ht]
    split_ifs with hc
    · simp at hc
    · simp [ht]
  | some t =>
    simp only [step, stepOverscroll, ht]
    split_ifs with hc
    · simp only [Bool.and_eq_true, Bool.not_eq_true', Bool.or_eq_false_iff,
        decide_eq_false_iff_not, Bool.not_eq_true, decide_eq_true_eq] at hc
      obtain ⟨⟨hA, hB⟩, hC⟩ := hc
      exact iff_of_true rfl
        ⟨not_lt.mp hA, by simpa using hB, t, rfl, hC⟩
    · refine iff_of_false (by simp) ?_
      rintro ⟨hle, htop, t', ht', hage⟩
      obtain rfl : t = t' := Option.some.inj ht'
      exact hc (by simp [htop, hage, not_lt.mpr hle])

/-- A `NaN` dampened distance (from a missing `dy`) can never fire a trigger
site: both stacked sites just record the `NaN` on `pullAnim`. -/
theorem moveDamping_nan (r0 : Bool) (s : ReconcilerState) :
    moveDamping r0 none s = ({ s with pullAnim := none }, { onRefreshCalls := 0 }) := by
  cases r0 <;> simp [moveDamping, triggerCheck, jsGe, onRefreshFn]

/-- Counterexample to C7 as stated: a scroll message lacking both `scrollY`
and `isAtTop` (`{type:'scroll'}`) is not dropped: `data.scrollY || 0` coerces
the offset to 0, which here makes the reconciler record an arrived-at-top
timestamp — the state after the event differs from the state before. -/
theorem malformedScrollMutating_cex :
    (step stateAfterScrollAway (.bridge (some (.scroll none none)) 100)).1 ≠
      stateAfterScrollAway ∧
    (step stateAfterScrollAway
        (.bridge (some (.scroll none none)) 100)).1.arrivedAtTopTimestamp = some 100 ∧
    stateAfterScrollAway.arrivedAtTopTimestamp = none := by decide

/-- C7 (amended): a bridge message with an unparseable JSON payload never
throws and leaves the reconciler state and effects exactly unchanged; messages
with missing fields also never throw (the step function is total) and can
never call `onRefresh` — a missing `dy` yields a `NaN` damping that fails
every threshold comparison, and scroll messages never emit effects — but such
messages are not dropped: missing fields are coerced (scrollY to 0, isAtTop
to a falsy value), which can change reconciler state. -/
theorem malformedBridgeMessages :
    (∀ (s : ReconcilerState) (now : ℕ), step s (.bridge none now) = (s, noEffects)) ∧
    (∀ (s : ReconcilerState) (now : ℕ) (ph : Option OverscrollPhase),
      (step s (.bridge (some (.overscroll ph none)) now)).2.onRefreshCalls = 0) ∧
    (∀ (s : ReconcilerState) (now : ℕ) (sy : Option ℚ) (tp : Option Bool),
      (step s (.bridge (some (.scroll sy tp)) now)).2 = noEffects) := by
  refine ⟨fun s now => rfl, ?_, fun s now sy tp => rfl⟩
  intro s now ph
  cases ph with
  | none => rfl
  | some p =>
    cases p with
    | start =>
      simp only [step, stepOverscroll]
      split_ifs <;> rfl
    | finish =>
      simp only [step, stepOverscroll]
      split_ifs <;> rfl
    | move =>
      simp only [step, stepOverscroll]
      split_ifs <;> try rfl
      have hd : jsMin (jsMul none (some 0.6)) (some (PULL_TRIGGER * 1.5)) = none := rfl
      rw [hd, moveDamping_nan]

/-- Counterexample to C1 as stated: for a `listing_approval` payload with
`listingId = "42"` and no `targetUrl`, the navigation-path function returns
`/my-listings/42`, not the `/listings/42` the claim names. -/
theorem notificationPathListing_cex :
    getNavigationPathFromNotification
      { type := .listing_approval, targetUrl := none, listingId := some "42",
        messageId := none } = .ok "/my-listings/42" ∧
    (Except.ok "/my-listings/42" : Except String String) ≠ .ok "/listings/42" := by
  decide

/-- C1 (amended): for every payload without a (truthy) `targetUrl`, the
navigation-path function deterministically maps `new_message` to
`/messages/{messageId}` (or `/messages` when the id is absent) and
`listing_approval`/`listing_rejection` to `/my-listings/{listingId}` (or
`/my-listings` when the id is absent). -/
theorem notificationPathTypeMapping (d : NotificationData)
    (h : jsTruthy d.targetUrl = false) :
    getNavigationPathFromNotification d = .ok
      (match d.type with
       | .new_message =>
         if jsTruthy d.messageId then "/messages/" ++ d.messageId.getD "" else "/messages"
       | _ =>
         if jsTruthy d.listingId then "/my-listings/" ++ d.listingId.getD ""
         else "/my-listings") := by
  obtain ⟨ty, tu, lid, mid⟩ := d
  simp only at h
  cases ty <;> simp [getNavigationPathFromNotification, h]

/-- Witness for `notificationPathTypeMapping`: a `new_message` payload with
`messageId = "7"` and no `targetUrl` maps to `/messages/7`. -/
theorem notificationPathTypeMapping_witness :
    jsTruthy ({ type := .new_message, targetUrl := none, listingId := none,
                messageId := some "7" } : NotificationData).targetUrl = false ∧
    getNavigationPathFromNotification
      { type := .new_message, targetUrl := none, listingId := none,
        messageId := some "7" } = .ok "/messages/7" := by
  refine ⟨rfl, ?_⟩
  rw [notificationPathTypeMapping
    { type := .new_message, targetUrl := none, listingId := none, messageId := some "7" }
    rfl]
  decide

/-- C3: session injection parses the current URL and emits nothing unless its
hostname is exactly `plixo.bg` or `www.plixo.bg`; for an allow-listed hostname
it emits exactly one `SUPABASE_SESSION` message carrying the session's
`access_token`, `refresh_token` and `user`. -/
theorem injectSessionAllowlist (url : String) (sd : SessionData) :
    ((∀ h, (parseURL url).map URLParts.hostname = some h →
        h ≠ "plixo.bg" ∧ h ≠ "www.plixo.bg") →
      injectSessionToWebView url sd = none) ∧
    (∀ h, (parseURL url).map URLParts.hostname = some h →
      (h = "plixo.bg" ∨ h = "www.plixo.bg") →
      injectSessionToWebView url sd =
        some { access_token := sd.access_token, refresh_token := sd.refresh_token,
               user := sd.user }) := by
  constructor
  · intro hna
    cases hp : parseURL url with
    | none => simp [injectSessionToWebView, hp]
    | some u =>
      have hu := hna u.hostname (by simp [hp])
      simp [injectSessionToWebView, hp, hu.1, hu.2]
  · intro h hp hor
    cases hq : parseURL url with
    | none => rw [hq] at hp; exact absurd hp (by simp)
    | some u =>
      rw [hq] at hp
      simp only [Option.map_some', Option.some.injEq] at hp
      rcases hor with h1 | h1 <;>
        simp [injectSessionToWebView, hq, hp, h1]

/-- Witness for `injectSessionAllowlist`: nothing is emitted for an
`evil.com` page, and exactly one full payload for a `plixo.bg` page. -/
theorem injectSessionAllowlist_witness :
    injectSessionToWebView "https://evil.com/x"
      { access_token := "a", refresh_token := "r", user := "u" } = none ∧
    injectSessionToWebView "https://plixo.bg/login"
      { access_token := "a", refresh_token := "r", user := "u" } =
      some { access_token := "a", refresh_token := "r", user := "u" } := by
  constructor
  · refine (injectSessionAllowlist "https://evil.com/x"
      { access_token := "a", refresh_token := "r", user := "u" }).1 ?_
    intro h hh
    have hp : (parseURL "https://evil.com/x").map URLParts.hostname = some "evil.com" := by
      decide
    rw [hp] at hh
    obtain rfl : "evil.com" = h := Option.some.inj hh
    decide
  · exact (injectSessionAllowlist "https://plixo.bg/login"
      { access_token := "a", refresh_token := "r", user := "u" }).2
      "plixo.bg" (by decide) (Or.inl rfl)

/-- C9: the navigation-request filter loads a URL in the embedded WebView
exactly when the URL contains the substring `plixo.bg` anywhere or begins with
`about:blank` or `data:`; every other URL is opened in the external browser
and blocked in the WebView.  In particular a foreign-origin URL whose query
contains `plixo.bg` is loaded in the embedded WebView. -/
theorem shouldStartLoadSpec :
    (∀ url, (handleShouldStartLoadWithRequest url).allowInWebView = true ↔
      (jsIncludes url "plixo.bg" = true ∨ jsStartsWith url "about:blank" = true ∨
       jsStartsWith url "data:" = true)) ∧
    (∀ url, (handleShouldStartLoadWithRequest url).openedExternally =
      !(handleShouldStartLoadWithRequest url).allowInWebView) ∧
    handleShouldStartLoadWithRequest "https://evil.example/search?q=plixo.bg" =
      { allowInWebView := true, openedExternally := false } ∧
    handleShouldStartLoadWithRequest "https://google.com/" =
      { allowInWebView := false, openedExternally := true } := by
  refine ⟨?_, ?_, by decide, by decide⟩
  · intro url
    simp only [handleShouldStartLoadWithRequest]
    split_ifs with h
    · exact iff_of_true rfl (by simpa [or_assoc] using h)
    · exact iff_of_false (by simp) (by simpa [and_assoc] using h)
  · intro url
    simp only [handleShouldStartLoadWithRequest]
    split_ifs <;> rfl

/-- Counterexample to C10 as stated: a payload whose `targetUrl` field is
present but empty is routed through the type-based mapping (no throw), and the
result depends on the `type` and id fields — contradicting "returns the
pathname of the parsed URL, ignoring the type and id fields entirely". -/
theorem targetUrlEmpty_cex :
    getNavigationPathFromNotification
      { type := .new_message, targetUrl := some "", listingId := none,
        messageId := some "7" } = .ok "/messages/7" ∧
    getNavigationPathFromNotification
      { type := .listing_approval, targetUrl := some "", listingId := none,
        messageId := none } = .ok "/my-listings" ∧
    (Except.ok "/messages/7" : Except String String) ≠ .ok "/my-listings" := by
  decide

/-- C10 (amended): when `targetUrl` is present and non-empty, the
navigation-path function returns the parsed URL's pathname plus query string,
independent of the `type` and id fields; when such a `targetUrl` is not a
parseable URL the function throws, and the exception propagates to
`handleNotificationPress` (which has no try/catch).  An empty `targetUrl` is
treated as absent. -/
theorem targetUrlNavigation (ty : NotifType) (u : String) (lid mid : Option String)
    (active : Bool) (hu : u ≠ "") :
    (∀ r, parseURL u = some r →
      getNavigationPathFromNotification
        { type := ty, targetUrl := some u, listingId := lid, messageId := mid } =
        .ok (r.pathname ++ r.search)) ∧
    (parseURL u = none →
      getNavigationPathFromNotification
        { type := ty, targetUrl := some u, listingId := lid, messageId := mid } =
        .error "TypeError: Invalid URL" ∧
      handleNotificationPress
        { type := ty, targetUrl := some u, listingId := lid, messageId := mid } active =
        .error "TypeError: Invalid URL") := by
  have htu : jsTruthy (some u) = true := by simp [jsTruthy, hu]
  constructor
  · intro r hr
    simp [getNavigationPathFromNotification, htu, hr]
  · intro hr
    have h1 : getNavigationPathFromNotification
        { type := ty, targetUrl := some u, listingId := lid, messageId := mid } =
        .error "TypeError: Invalid URL" := by
      simp [getNavigationPathFromNotification, htu, hr]
    exact ⟨h1, by simp [handleNotificationPress, h1]⟩

/-- Witness for `targetUrlNavigation`: a full URL is reduced to its path and
query, and an unparseable `targetUrl` surfaces as an error from the press
handler. -/
theorem targetUrlNavigation_witness :
    getNavigationPathFromNotification
      { type := .new_message, targetUrl := some "https://plixo.bg/x/y?q=1",
        listingId := none, messageId := none } = .ok "/x/y?q=1" ∧
    handleNotificationPress
      { type := .new_message, targetUrl := some "not-a-url", listingId := none,
        messageId := none } true = .error "TypeError: Invalid URL" := by
  constructor
  · rw [(targetUrlNavigation .new_message "https://plixo.bg/x/y?q=1" none none true
      (by decide)).1
      { hostname := "plixo.bg", pathname := "/x/y", search := "?q=1" } (by decide)]
    decide
  · exact ((targetUrlNavigation .new_message "not-a-url" none none true
      (by decide)).2 (by decide)).2

/-- C8: `exchangeGoogleToken` always returns (never throws): a timeout yields
a failure carrying the timeout-specific message, which differs from the fixed
failure messages and from every status-based `Server error: {status}` message;
a non-2xx response yields a failure carrying the body's `error` message when
truthy and the status-based message otherwise; a 2xx response missing (or
empty) `access_token` or `refresh_token` yields the fixed invalid-response
failure; and a 2xx response with both tokens yields success with the pair. -/
theorem exchangeGoogleTokenSpec :
    (exchangeGoogleToken .timeout =
      { success := false, data := none, error := some timeoutErrorMessage }) ∧
    (∀ (status : ℕ) (body : Option RespBody), respOk status = false →
      exchangeGoogleToken (.response status body) =
        { success := false, data := none,
          error := some (if jsTruthy ((body.getD
              { access_token := none, refresh_token := none, user := none,
                error := none }).error)
            then (body.getD
              { access_token := none, refresh_token := none, user := none,
                error := none }).error.getD ""
            else serverErrorMessage status) }) ∧
    (∀ (status : ℕ) (b : RespBody), respOk status = true →
      ((jsTruthy b.access_token = false ∨ jsTruthy b.refresh_token = false) →
        exchangeGoogleToken (.response status (some b)) =
          { success := false, data := none,
            error := some "Invalid response from server" }) ∧
      (jsTruthy b.access_token = true → jsTruthy b.refresh_token = true →
        exchangeGoogleToken (.response status (some b)) =
          { success := true,
            data := some { access_token := b.access_token.getD ""
                           refresh_token := b.refresh_token.getD ""
                           user := b.user },
            error := none })) ∧
    (timeoutErrorMessage ≠ "Invalid response from server" ∧
     timeoutErrorMessage ≠ "Failed to authenticate with server" ∧
     ∀ status : ℕ, timeoutErrorMessage ≠ serverErrorMessage status) := by
  refine ⟨rfl, ?_, ?_, by decide, by decide, ?_⟩
  · intro status body h
    simp [exchangeGoogleToken, h]
  · intro status b h
    constructor
    · intro hmiss
      rcases hmiss with hm | hm <;> simp [exchangeGoogleToken, h, hm]
    · intro ha hr
      simp [exchangeGoogleToken, h, ha, hr]
  · intro status heq
    have h2 : timeoutErrorMessage.data = "Server error: ".data ++ (toString status).data := by
      rw [← String.data_append]
      exact congrArg String.data heq
    have h3 := congrArg List.head? h2
    rw [show ∀ l : List Char, ("Server error: ".data ++ l).head? = some 'S'
        from fun l => rfl] at h3
    rw [show timeoutErrorMessage.data.head? = some 'R' from rfl] at h3
    exact absurd h3 (by decide)

/-- Witness for `exchangeGoogleTokenSpec`: a 500 response with a body error
message surfaces that message; a 200 response with both tokens succeeds. -/
theorem exchangeGoogleTokenSpec_witness :
    respOk 500 = false ∧
    exchangeGoogleToken (.response 500 (some
      { access_token := none, refresh_token := none, user := none,
        error := some "boom" })) =
      { success := false, data := none, error := some "boom" } ∧
    respOk 200 = true ∧
    exchangeGoogleToken (.response 200 (some
      { access_token := some "A", refresh_token := some "R", user := none,
        error := none })) =
      { success := true,
        data := some { access_token := "A", refresh_token := "R", user := none },
        error := none } := by
  refine ⟨by decide, ?_, by decide, ?_⟩
  · rw [exchangeGoogleTokenSpec.2.1 500 (some
      { access_token := none, refresh_token := none, user := none,
        error := some "boom" }) (by decide)]
    decide
  · rw [(exchangeGoogleTokenSpec.2.2.1 200
      { access_token := some "A", refresh_token := some "R", user := none,
        error := none } (by decide)).2 (by decide) (by decide)]
    decide
